import Mathlib

/-
Verification of the crawl-and-extract engine of the web_sales_analytic_pipeline
repository.  Each definition below is a shallow embedding of one Python
function from the repository sources; the theorems settle the frozen claims
about them.  Python floats are modelled as exact rationals (every numeric
literal occurring in the claims denotes the same IEEE double on both sides of
the compared equations, so the rounding function cancels and exact arithmetic
is faithful for these comparisons).  Python `None` is modelled with `Option`.
-/

/-- Python `str.rstrip` restricted to the slash character, as used by
`handle_url` in src/scraping/utils.py: drop every trailing slash. -/
def rstripSlash (s : String) : String :=
  String.mk ((s.toList.reverse.dropWhile (fun c => c = ('/' : Char))).reverse)

/-- Python `str.startswith(p)`, written over character lists so that the
kernel can evaluate it on concrete inputs. -/
def strStartsWith (s p : String) : Bool :=
  p.toList.isPrefixOf s.toList

/-- Shallow embedding of `handle_url` in src/scraping/utils.py.  A falsy
(empty) url yields `none`; an absolute url (scheme prefix) is returned
unchanged; a url starting with a slash is concatenated to the base with its
trailing slashes stripped; any other url is concatenated with a single slash
inserted.  The Python `None` url input takes the same branch as the empty
string (`if not url`), so the `String` domain with the empty-string test
covers it. -/
def handle_url (url : String) (base_url : Option String) : Option String :=
  if url = "" then none
  else if strStartsWith url ("http://") || strStartsWith url ("https://") then some url
  else if strStartsWith url ("/") then
    match base_url with
    | some b => some (rstripSlash b ++ url)
    | none => some url
  else
    match base_url with
    | some b => some (rstripSlash b ++ ("/") ++ url)
    | none => some url

/-- Characters kept by the `re.sub(r'[^\d.,]', '', s)` step of
`CleanData._clean_price` (src/transform/base.py): digits, dot and comma. -/
def keepPriceChar (c : Char) : Bool :=
  c.isDigit || c = ('.' : Char) || c = (',' : Char)

/-- The stripping step of `CleanData._clean_price`: remove every character
other than digits, `.` and `,`. -/
def stripPrice (s : String) : String :=
  String.mk (s.toList.filter keepPriceChar)

/-- Python `str.replace(old, new)` for single characters (replaces every
occurrence). -/
def replaceChar (a b : Char) (s : String) : String :=
  String.mk (s.toList.map (fun x => if x = a then b else x))

/-- Python `str.replace(old, '')` for a single character (removes every
occurrence). -/
def removeChar (a : Char) (s : String) : String :=
  String.mk (s.toList.filter (fun x => x ≠ a))

/-- Value of a string of decimal digit characters (most significant first). -/
def digitsVal (cs : List Char) : ℕ :=
  cs.foldl (fun a c => 10 * a + (c.toNat - 48)) 0

/-- Python `float(s)` restricted to strings made of digits and dots, which is
the only shape reaching the `float` call inside `_clean_price` after the
separator normalisation.  Accepts at most one dot and at least one digit
(`float(".")`, `float("")` and strings with several dots raise `ValueError`,
which `_clean_price` turns into `None`).  The value of the string `"a.b"` is
the exact rational `(a * 10 ^ len(b) + b) / 10 ^ len(b)`, built with `mkRat`
so the kernel can evaluate it.  First, the list analogue of splitting a
string at every dot. -/
def splitDot : List Char → List (List Char)
  | [] => [[]]
  | c :: rest =>
    let r := splitDot rest
    if c = ('.' : Char) then [] :: r
    else
      match r with
      | [] => [[c]]
      | h :: t => (c :: h) :: t

def pyFloatDigitsDot (s : String) : Option ℚ :=
  let cs := s.toList
  if cs.all (fun c => c.isDigit || c = ('.' : Char))
      && cs.count ('.' : Char) ≤ 1
      && cs.any (fun c => c.isDigit) then
    match splitDot cs with
    | [a] => some (mkRat (digitsVal a) 1)
    | [a, b] =>
        some (mkRat (digitsVal a * 10 ^ b.length + digitsVal b) (10 ^ b.length))
    | _ => none
  else none

/-- Shallow embedding of `CleanData._clean_price` (src/transform/base.py,
lines 41-71).  `pd.isna` on the `None` input is modelled by the `Option`
match; the separator logic follows the source: with both separators present
the first one found is stripped as a thousands separator (note that Python
`str.replace` removes every occurrence), with only a comma present every
comma becomes a dot; a `ValueError` from `float` yields `None`. -/
def clean_price (price : Option String) : Option ℚ :=
  match price with
  | none => none
  | some raw =>
    let s := stripPrice raw
    if s = "" then none
    else
      let cs := s.toList
      let s2 :=
        if cs.contains (',' : Char) && cs.contains ('.' : Char) then
          if cs.indexOf (',' : Char) < cs.indexOf ('.' : Char) then
            removeChar (',') s
          else
            replaceChar (',') ('.') (removeChar ('.') s)
        else if cs.contains (',' : Char) then
          replaceChar (',') ('.') s
        else s
      pyFloatDigitsDot s2

/-- C7 counterexample: `handle_url` does not implement standard relative-URL
resolution.  Resolving `"../x"` against `"https://site.ma/a/b/"` by the
standard rule would give `"https://site.ma/a/x"`, but the code concatenates
the strings and yields `"https://site.ma/a/b/../x"`: dot segments are never
collapsed. -/
theorem handle_url_dotdot_counterexample :
    handle_url ("../x") (some ("https://site.ma/a/b/"))
      = some ("https://site.ma/a/b/../x")
    ∧ handle_url ("../x") (some ("https://site.ma/a/b/"))
      ≠ some ("https://site.ma/a/x") := by
  constructor
  · decide
  · decide

/-- C7 (amended): for every non-empty url that is not already absolute,
`handle_url` joins it to the base by plain string concatenation — the base
with trailing slashes stripped, then the url itself when it starts with a
slash, otherwise a single inserted slash and the url.  Dot segments are never
collapsed, and query strings and fragments pass through verbatim as part of
the concatenated string. -/
theorem handle_url_concat_spec (r b : String) (hr : r ≠ "")
    (habs : (strStartsWith r ("http://") || strStartsWith r ("https://")) = false) :
    handle_url r (some b) =
      some (if strStartsWith r ("/") then rstripSlash b ++ r
            else rstripSlash b ++ ("/") ++ r) := by
  unfold handle_url
  rw [if_neg hr]
  rw [habs]
  simp only [Bool.false_eq_true, if_false]
  by_cases h : strStartsWith r ("/") = true
  · rw [if_pos h, if_pos h]
  · rw [if_neg h, if_neg h]

/-- C7 witness: the concatenation law evaluated at the counterexample's
concrete input. -/
theorem handle_url_concat_spec_witness :
    ("../x" : String) ≠ ""
    ∧ (strStartsWith ("../x") ("http://") || strStartsWith ("../x") ("https://")) = false
    ∧ handle_url ("../x") (some ("https://site.ma/a/b/"))
        = some (if strStartsWith ("../x") ("/")
                then rstripSlash ("https://site.ma/a/b/") ++ ("../x")
                else rstripSlash ("https://site.ma/a/b/") ++ ("/") ++ ("../x")) :=
  ⟨by decide, by decide,
    handle_url_concat_spec ("../x") ("https://site.ma/a/b/") (by decide) (by decide)⟩

/-- C5: `clean_price` strips everything except digits, dot and comma; with
both separators present the earlier one is a thousands separator and the
later the decimal point; a lone comma becomes the decimal point; an empty
string after stripping gives `none`; a non-numeric leftover (several dots)
gives `none` without raising; and the three documented evaluations hold:
`clean_price "1,229.00 DH" = 1229`, `clean_price "299,99 DH" = 299.99`,
`clean_price None = None`. -/
theorem clean_price_spec :
    clean_price (some ("1,229.00 DH")) = some (1229 : ℚ)
    ∧ clean_price (some ("299,99 DH")) = some ((29999 : ℚ) / 100)
    ∧ clean_price none = none
    ∧ (∀ s : String, stripPrice s = "" → clean_price (some s) = none)
    ∧ clean_price (some ("1.229,99 DH")) = some ((122999 : ℚ) / 100)
    ∧ clean_price (some ("1.2.3")) = none := by
  have e1 : ((29999 : ℚ) / 100) = mkRat 29999 100 := by
    norm_num [Rat.mkRat_eq_div]
  have e2 : ((122999 : ℚ) / 100) = mkRat 122999 100 := by
    norm_num [Rat.mkRat_eq_div]
  refine ⟨by decide, ?_, rfl, ?_, ?_, by decide⟩
  · rw [e1]; decide
  · intro s h
    simp [clean_price, h]
  · rw [e2]; decide

/-- C5 witness: the universally quantified empty-after-stripping clause of
`clean_price_spec` applied at the concrete input `" DH "`. -/
theorem clean_price_spec_witness :
    stripPrice (" DH ") = "" ∧ clean_price (some (" DH ")) = none :=
  ⟨by decide, clean_price_spec.2.2.2.1 (" DH ") (by decide)⟩

/-- Outcome of one GET attempt, matching the except clauses of
`Base._make_request` (src/scraping/base.py): success, an HTTP error status, a
connection error, a timeout, or any other request exception. -/
inductive AttemptOutcome
  | success
  | httpError (status : ℕ)
  | connError
  | timeoutErr
  | reqError
deriving DecidableEq

/-- Observable side effect of `Base._make_request`: a GET (one per attempt,
indexed 0-based), a backoff sleep, or the politeness sleep on success. -/
inductive FetchEvent
  | getAttempt (n : ℕ)
  | sleepBackoff (secs : ℕ)
  | sleepDelay (secs : ℕ)
deriving DecidableEq

/-- One pass of the `for attempt in range(max_retries)` loop of
`Base._make_request` (src/scraping/base.py, lines 79-112), over the list of
remaining attempt indices; `oracle` gives the outcome of the GET issued at
each attempt index.  On success the politeness delay is slept and the
response returned; an HTTP 404 returns `None` from inside its except clause;
every other failure falls through to the shared backoff block, which sleeps
`(attempt + 1) * 2` seconds and retries while `attempt < max_retries - 1`
(the ℕ subtraction agrees with Python's int test on every reachable input
because attempt ranges over `range(max_retries)`).  Falling off the loop
returns Python's implicit `None`. -/
def requestLoop (oracle : ℕ → AttemptOutcome) (max_retries delay : ℕ) :
    List ℕ → Option Unit × List FetchEvent
  | [] => (none, [])
  | attempt :: rest =>
    match oracle attempt with
    | .success => (some (), [.getAttempt attempt, .sleepDelay delay])
    | .httpError s =>
      if s = 404 then (none, [.getAttempt attempt])
      else if attempt < max_retries - 1 then
        let p := requestLoop oracle max_retries delay rest
        (p.1, .getAttempt attempt :: .sleepBackoff ((attempt + 1) * 2) :: p.2)
      else (none, [.getAttempt attempt])
    | .connError =>
      if attempt < max_retries - 1 then
        let p := requestLoop oracle max_retries delay rest
        (p.1, .getAttempt attempt :: .sleepBackoff ((attempt + 1) * 2) :: p.2)
      else (none, [.getAttempt attempt])
    | .timeoutErr =>
      if attempt < max_retries - 1 then
        let p := requestLoop oracle max_retries delay rest
        (p.1, .getAttempt attempt :: .sleepBackoff ((attempt + 1) * 2) :: p.2)
      else (none, [.getAttempt attempt])
    | .reqError =>
      if attempt < max_retries - 1 then
        let p := requestLoop oracle max_retries delay rest
        (p.1, .getAttempt attempt :: .sleepBackoff ((attempt + 1) * 2) :: p.2)
      else (none, [.getAttempt attempt])

/-- Shallow embedding of `Base._make_request`: run the attempt loop over
`range(max_retries)`, returning the result (a response modelled as `()` or
`None`) together with the trace of GETs and sleeps it performs. -/
def make_request (oracle : ℕ → AttemptOutcome) (max_retries delay : ℕ) :
    Option Unit × List FetchEvent :=
  requestLoop oracle max_retries delay (List.range max_retries)

/-- Transient attempt outcome: anything `_make_request` retries — an HTTP
error other than 404, a connection error, a timeout, or any other request
exception. -/
def transientOutcome : AttemptOutcome → Prop
  | .success => False
  | .httpError s => s ≠ 404
  | .connError => True
  | .timeoutErr => True
  | .reqError => True

/-- Expected trace of a fetch whose `c` attempts starting at index `j` fail
transiently and whose attempt `j + c` is terminal: each transient attempt is
a GET followed by a backoff sleep of `(index + 1) * 2` seconds, and the
terminal attempt is a final GET with no sleep after it. -/
def traceSeg : ℕ → ℕ → List FetchEvent
  | j, 0 => [.getAttempt j]
  | j, c + 1 => .getAttempt j :: .sleepBackoff ((j + 1) * 2) :: traceSeg (j + 1) c

/-- C3: with `max_retries = 3` and every attempt timing out, `_make_request`
performs exactly 3 GET attempts, sleeps 2 seconds after the first failure
and 4 seconds after the second, returns `none` after the third failure, and
never sleeps the politeness delay (which occurs only on success). -/
theorem make_request_all_timeouts (oracle : ℕ → AttemptOutcome) (delay : ℕ)
    (h : ∀ n, n < 3 → oracle n = .timeoutErr) :
    make_request oracle 3 delay =
      (none, [.getAttempt 0, .sleepBackoff 2, .getAttempt 1, .sleepBackoff 4,
              .getAttempt 2]) := by
  have h0 := h 0 (by omega)
  have h1 := h 1 (by omega)
  have h2 := h 2 (by omega)
  have hr : List.range 3 = [0, 1, 2] := rfl
  simp [make_request, hr, requestLoop, h0, h1, h2]

/-- C3 witness: the all-timeouts theorem applied to the constant timeout
oracle with politeness delay 1. -/
theorem make_request_all_timeouts_witness :
    (∀ n, n < 3 → (fun _ : ℕ => AttemptOutcome.timeoutErr) n = .timeoutErr)
    ∧ make_request (fun _ => .timeoutErr) 3 1 =
        (none, [.getAttempt 0, .sleepBackoff 2, .getAttempt 1, .sleepBackoff 4,
                .getAttempt 2]) :=
  ⟨fun _ _ => rfl,
    make_request_all_timeouts (fun _ => .timeoutErr) 1 (fun _ _ => rfl)⟩

/-- Helper for C4: starting the attempt loop at index `j`, with the `c`
attempts `j..j+c-1` failing transiently and attempt `i = j + c` returning
HTTP 404, the loop returns `none` with the transient trace followed by the
terminal GET and no sleep after it. -/
theorem requestLoop_404 (oracle : ℕ → AttemptOutcome) (mr delay i : ℕ)
    (hi : i < mr) (h404 : oracle i = .httpError 404)
    (htr : ∀ k, k < i → transientOutcome (oracle k)) :
    ∀ c j, j + c = i →
      requestLoop oracle mr delay (List.range' j (mr - j)) =
        (none, traceSeg j c) := by
  intro c
  induction c with
  | zero =>
    intro j hj
    have hj' : j = i := by omega
    subst hj'
    have hsz : mr - j = (mr - j - 1) + 1 := by omega
    rw [hsz]
    simp [List.range', requestLoop, h404, traceSeg]
  | succ c ih =>
    intro j hj
    have hjlt : j < i := by omega
    have hsz : mr - j = (mr - j - 1) + 1 := by omega
    have hrest : mr - (j + 1) = mr - j - 1 := by omega
    have hlt : j < mr - 1 := by omega
    have htrj := htr j hjlt
    have ihj := ih (j + 1) (by omega)
    rw [hrest] at ihj
    rw [hsz]
    rcases ho : oracle j with _ | s | _ | _ | _
    · rw [ho] at htrj
      exact absurd htrj (by simp [transientOutcome])
    · have hs : s ≠ 404 := by rw [ho] at htrj; exact htrj
      simp [List.range', requestLoop, ho, hs, hlt, ihj, traceSeg]
    · simp [List.range', requestLoop, ho, hlt, ihj, traceSeg]
    · simp [List.range', requestLoop, ho, hlt, ihj, traceSeg]
    · simp [List.range', requestLoop, ho, hlt, ihj, traceSeg]

/-- C4: an HTTP 404 at attempt `i` is terminal — `_make_request` returns
`none` from that very attempt, with no backoff sleep and no further GET after
it — while the transient outcomes at every earlier attempt (any non-404 HTTP
error, connection error, or timeout) were each retried, as the trace of one
GET per attempt `0..i` shows. -/
theorem make_request_404_terminal (oracle : ℕ → AttemptOutcome)
    (mr delay i : ℕ) (hi : i < mr) (h404 : oracle i = .httpError 404)
    (htr : ∀ k, k < i → transientOutcome (oracle k)) :
    make_request oracle mr delay = (none, traceSeg 0 i) := by
  have h := requestLoop_404 oracle mr delay i hi h404 htr i 0 (by omega)
  show requestLoop oracle mr delay (List.range mr) = (none, traceSeg 0 i)
  rw [List.range_eq_range']
  simpa using h

/-- C4 witness: the 404-terminal theorem applied to an oracle whose first
attempt hits a connection error and whose second attempt gets a 404, with
`max_retries = 3`. -/
theorem make_request_404_terminal_witness :
    (1 < 3)
    ∧ ((fun n : ℕ => if n = 0 then AttemptOutcome.connError
          else .httpError 404) 1 = .httpError 404)
    ∧ (∀ k, k < 1 → transientOutcome
        ((fun n : ℕ => if n = 0 then AttemptOutcome.connError
            else .httpError 404) k))
    ∧ make_request
        (fun n : ℕ => if n = 0 then AttemptOutcome.connError
          else .httpError 404) 3 1
        = (none, traceSeg 0 1) :=
  ⟨by omega, rfl,
    fun k hk => by
      have hk0 : k = 0 := by omega
      subst hk0
      exact trivial,
    make_request_404_terminal
      (fun n : ℕ => if n = 0 then AttemptOutcome.connError
        else .httpError 404) 3 1 1 (by omega) rfl
      (fun k hk => by
        have hk0 : k = 0 := by omega
        subst hk0
        exact trivial)⟩

/-- One listing page as `Jumia.scrape_product_list` sees it after parsing:
the listing fragments found by the product selector and the href of the
"Next" button when a button with an href attribute is present (`none` covers
both a missing button and a button whose href attribute is absent, two
branches of the source that break identically). -/
structure ListingPage (α : Type) where
  listings : List α
  nextHref : Option String

/-- Result of one `scrape_product_list` call: the shared products buffer at
exit, how many times the "Next" link was followed, the final `page_num`
counter (starts at 1), and the buffer lengths at which a CSV flush happened
(incremental flushes at multiples of 100, then the final flush). -/
structure CrawlResult (β : Type) where
  products : List β
  follows : ℕ
  pageNum : ℕ
  flushes : List ℕ

/-- The Python guard `if max_products and (len(self.products) - initial_count)
>= max_products`: `None` and `0` are falsy, so they disable the cap check;
otherwise the per-category delta is compared with the cap over ℤ. -/
def capReached (mp : Option ℤ) (delta : ℤ) : Bool :=
  match mp with
  | none => false
  | some m => if m = 0 then false else decide (delta ≥ m)

/-- The inner `for product in products` loop of `Jumia.scrape_product_list`
(src/scraping/jumia/main.py, lines 140-154): the cap is re-checked before
each fragment; a fragment whose extraction returns `None` is skipped; an
extracted record is appended to the shared buffer, and whenever the buffer
length reaches a multiple of 100 the whole buffer is flushed. -/
def processListings {α β : Type} (extract : α → Option β) (mp : Option ℤ)
    (initial : ℕ) : List α → List β → List ℕ → List β × List ℕ
  | [], buf, fl => (buf, fl)
  | f :: rest, buf, fl =>
    if capReached mp ((buf.length : ℤ) - (initial : ℤ)) then (buf, fl)
    else
      match extract f with
      | none => processListings extract mp initial rest buf fl
      | some r =>
        let buf2 := buf ++ [r]
        let fl2 := if buf2.length % 100 = 0 then fl ++ [buf2.length] else fl
        processListings extract mp initial rest buf2 fl2

/-- The `while True` pagination loop of `Jumia.scrape_product_list`
(src/scraping/jumia/main.py, lines 114-183), with an explicit fuel bound
standing for the unbounded iteration; every `break` of the source is a
state-returning branch.  `fetch` abstracts `_make_request` plus
BeautifulSoup parsing (`none` = failed fetch), `extract` abstracts
`_extract_product_data`.  The next url is built by `handle_url` against the
site base; the except-break path of the source only cuts the loop short and
is subsumed by the fuel and stop branches (it can never add records). -/
def scrapeLoop {α β : Type} (fetch : String → Option (ListingPage α))
    (extract : α → Option β) (base : String) (mp : Option ℤ) (initial : ℕ) :
    ℕ → String → ℕ → ℕ → List β → List ℕ → CrawlResult β
  | 0, _, follows, pageNum, buf, fl => ⟨buf, follows, pageNum, fl⟩
  | fuel + 1, url, follows, pageNum, buf, fl =>
    if capReached mp ((buf.length : ℤ) - (initial : ℤ)) then
      ⟨buf, follows, pageNum, fl⟩
    else
      match fetch url with
      | none => ⟨buf, follows, pageNum, fl⟩
      | some page =>
        if page.listings.isEmpty then ⟨buf, follows, pageNum, fl⟩
        else
          let bf := processListings extract mp initial page.listings buf fl
          if capReached mp ((bf.1.length : ℤ) - (initial : ℤ)) then
            ⟨bf.1, follows, pageNum, bf.2⟩
          else
            match page.nextHref with
            | none => ⟨bf.1, follows, pageNum, bf.2⟩
            | some href =>
              if href = "" then ⟨bf.1, follows, pageNum, bf.2⟩
              else
                match handle_url href (some base) with
                | none => ⟨bf.1, follows, pageNum, bf.2⟩
                | some nextUrl =>
                  scrapeLoop fetch extract base mp initial fuel nextUrl
                    (follows + 1) (pageNum + 1) bf.1 bf.2

/-- Shallow embedding of `Jumia.scrape_product_list`: record the starting
buffer length as `initial_count`, run the pagination loop from the category
url with `page_num = 1`, then perform the unconditional final flush whenever
the buffer is non-empty. -/
def scrape_product_list {α β : Type} (fetch : String → Option (ListingPage α))
    (extract : α → Option β) (base categoryUrl : String) (mp : Option ℤ)
    (buf0 : List β) (fuel : ℕ) : CrawlResult β :=
  let r := scrapeLoop fetch extract base mp buf0.length fuel categoryUrl 0 1 buf0 []
  { r with
      flushes := if r.products.isEmpty then r.flushes
                 else r.flushes ++ [r.products.length] }

/-- Single-page environment: one page with one extractable listing and no
next link. -/
def onePageFetch : String → Option (ListingPage ℕ) :=
  fun u => if u = "https://www.jumia.ma/cat" then some ⟨[7], none⟩ else none

/-- Three-page category environment for the end-to-end scenario: pages with
10, 10 and 4 listings, every listing extractable, chained by next hrefs. -/
def threePageFetch : String → Option (ListingPage ℕ)
  | "https://www.jumia.ma/cat" => some ⟨List.range 10, some ("/p2")⟩
  | "https://www.jumia.ma/p2" => some ⟨List.range 10, some ("/p3")⟩
  | "https://www.jumia.ma/p3" => some ⟨List.range 4, none⟩
  | _ => none

/-- When the cap guard is off and the cap is positive, the delta is strictly
below the cap. -/
theorem capReached_false_lt {m delta : ℤ} (hm : 1 ≤ m)
    (h : capReached (some m) delta = false) : delta < m := by
  have hm0 : m ≠ 0 := by omega
  simp [capReached, hm0] at h
  omega

/-- The per-listing loop preserves the cap bound: if the delta is at most the
(positive) cap on entry, it is at most the cap on exit, because the guard is
checked before every append. -/
theorem processListings_cap_le {α β : Type} (extract : α → Option β) (m : ℤ)
    (hm : 1 ≤ m) (initial : ℕ) (fs : List α) :
    ∀ (buf : List β) (fl : List ℕ),
      (buf.length : ℤ) - (initial : ℤ) ≤ m →
      ((processListings extract (some m) initial fs buf fl).1.length : ℤ)
        - (initial : ℤ) ≤ m := by
  induction fs with
  | nil =>
    intro buf fl h
    simpa [processListings] using h
  | cons f rest ih =>
    intro buf fl h
    by_cases hc : capReached (some m) ((buf.length : ℤ) - (initial : ℤ)) = true
    · simpa [processListings, hc] using h
    · have hc2 : capReached (some m) ((buf.length : ℤ) - (initial : ℤ)) = false :=
        Bool.eq_false_iff.mpr hc
      have hlt := capReached_false_lt hm hc2
      cases he : extract f with
      | none =>
        simpa [processListings, hc2, he] using ih buf fl h
      | some r =>
        have hlen : ((buf ++ [r]).length : ℤ) - (initial : ℤ) ≤ m := by
          simp only [List.length_append, List.length_cons, List.length_nil]
          push_cast
          omega
        simpa [processListings, hc2, he] using
          ih (buf ++ [r])
            (if (buf ++ [r]).length % 100 = 0 then fl ++ [(buf ++ [r]).length] else fl)
            hlen

/-- The pagination loop preserves the cap bound at every stop branch and
across iterations. -/
theorem scrapeLoop_cap_le {α β : Type} (fetch : String → Option (ListingPage α))
    (extract : α → Option β) (base : String) (m : ℤ) (hm : 1 ≤ m)
    (initial : ℕ) (fuel : ℕ) :
    ∀ (url : String) (follows pageNum : ℕ) (buf : List β) (fl : List ℕ),
      (buf.length : ℤ) - (initial : ℤ) ≤ m →
      (((scrapeLoop fetch extract base (some m) initial fuel url follows pageNum
          buf fl).products.length : ℤ) - (initial : ℤ) ≤ m) := by
  induction fuel with
  | zero =>
    intro url follows pageNum buf fl h
    simpa [scrapeLoop] using h
  | succ fuel ih =>
    intro url follows pageNum buf fl h
    by_cases hc : capReached (some m) ((buf.length : ℤ) - (initial : ℤ)) = true
    · simpa [scrapeLoop, hc] using h
    · have hc2 : capReached (some m) ((buf.length : ℤ) - (initial : ℤ)) = false :=
        Bool.eq_false_iff.mpr hc
      cases hf : fetch url with
      | none => simpa [scrapeLoop, hc2, hf] using h
      | some page =>
        by_cases hl : page.listings.isEmpty
        · simpa [scrapeLoop, hc2, hf, hl] using h
        · have hb := processListings_cap_le extract m hm initial page.listings buf fl h
          by_cases hc3 : capReached (some m)
              (((processListings extract (some m) initial page.listings buf fl).1.length : ℤ)
                - (initial : ℤ)) = true
          · simpa [scrapeLoop, hc2, hf, hl, hc3] using hb
          · have hc4 : capReached (some m)
                (((processListings extract (some m) initial page.listings buf fl).1.length : ℤ)
                  - (initial : ℤ)) = false := Bool.eq_false_iff.mpr hc3
            cases hn : page.nextHref with
            | none => simpa [scrapeLoop, hc2, hf, hl, hc4, hn] using hb
            | some href =>
              by_cases hh : href = ""
              · simpa [scrapeLoop, hc2, hf, hl, hc4, hn, hh] using hb
              · cases hu : handle_url href (some base) with
                | none => simpa [scrapeLoop, hc2, hf, hl, hc4, hn, hh, hu] using hb
                | some nextUrl =>
                  simpa [scrapeLoop, hc2, hf, hl, hc4, hn, hh, hu] using
                    ih nextUrl (follows + 1) (pageNum + 1)
                      (processListings extract (some m) initial page.listings buf fl).1
                      (processListings extract (some m) initial page.listings buf fl).2
                      hb

/-- C1 (amended): for every positive finite cap and every category crawl, the
pagination crawler adds at most `max_products` new records to the shared
buffer relative to the buffer length at the start of the category — the cap
is checked before each page fetch, before appending each extracted record,
and after each page's listings, so the per-category delta never exceeds the
cap even when the cap is reached mid-page.  (A cap of `0`, although finite,
is falsy in Python and disables the guard; the counterexample exhibits
this.) -/
theorem scrape_product_list_cap_le {α β : Type}
    (fetch : String → Option (ListingPage α)) (extract : α → Option β)
    (base categoryUrl : String) (m : ℤ) (hm : 1 ≤ m) (buf0 : List β)
    (fuel : ℕ) :
    ((scrape_product_list fetch extract base categoryUrl (some m) buf0
        fuel).products.length : ℤ) - (buf0.length : ℤ) ≤ m := by
  have h := scrapeLoop_cap_le fetch extract base m hm buf0.length fuel
    categoryUrl 0 1 buf0 [] (by omega)
  simpa [scrape_product_list] using h

/-- C1 witness: the cap bound applied to a concrete single-page crawl with
cap 2. -/
theorem scrape_product_list_cap_le_witness :
    (1 : ℤ) ≤ 2
    ∧ ((scrape_product_list onePageFetch some "https://www.jumia.ma"
          "https://www.jumia.ma/cat" (some 2) ([] : List ℕ)
          5).products.length : ℤ) - (([] : List ℕ).length : ℤ) ≤ 2 :=
  ⟨by norm_num,
    scrape_product_list_cap_le onePageFetch some "https://www.jumia.ma"
      "https://www.jumia.ma/cat" 2 (by norm_num) ([] : List ℕ) 5⟩

/-- C1 counterexample: a cap of `0` is a finite cap, yet the truthiness guard
`if max_products and ...` treats `0` as "no cap", so a crawl over a page with
one extractable listing adds 1 > 0 records for the category. -/
theorem scrape_cap_zero_counterexample :
    (scrape_product_list onePageFetch some "https://www.jumia.ma"
        "https://www.jumia.ma/cat" (some 0) ([] : List ℕ)
        5).products.length = 1
    ∧ ¬ ((1 : ℤ) - 0 ≤ 0) := by
  constructor
  · decide
  · decide

/-- C2 counterexample: in the 3-page, 10/10/4-listing, cap-15 scenario the
crawler does buffer 15 records with a final flush of 15, but it follows the
next-page link exactly once, not twice — the cap is reached in the middle of
page 2, the loop breaks before locating page 2's next button, and page 3 is
never fetched. -/
theorem three_page_crawl_counterexample :
    (scrape_product_list threePageFetch some "https://www.jumia.ma"
        "https://www.jumia.ma/cat" (some 15) ([] : List ℕ) 10).follows = 1
    ∧ (scrape_product_list threePageFetch some "https://www.jumia.ma"
        "https://www.jumia.ma/cat" (some 15) ([] : List ℕ) 10).follows ≠ 2 := by
  constructor
  · decide
  · decide

/-- C2 (amended): a 3-page category with 10/10/4 extractable listings and cap
15, starting from an empty buffer, buffers exactly 15 records, performs a
final flush of length 15 at loop exit, and follows the next-page link exactly
1 time: pages 1 and 2 are fetched, the cap is hit mid-page-2, and page 3 is
never visited. -/
theorem three_page_crawl_spec :
    (scrape_product_list threePageFetch some "https://www.jumia.ma"
        "https://www.jumia.ma/cat" (some 15) ([] : List ℕ)
        10).products.length = 15
    ∧ (scrape_product_list threePageFetch some "https://www.jumia.ma"
        "https://www.jumia.ma/cat" (some 15) ([] : List ℕ) 10).flushes = [15]
    ∧ (scrape_product_list threePageFetch some "https://www.jumia.ma"
        "https://www.jumia.ma/cat" (some 15) ([] : List ℕ) 10).follows = 1 := by
  refine ⟨by decide, by decide, by decide⟩

/-- A row of the `products` table created by `PostgresLoader._init_schema`
(src/load/load_postgres.py, lines 101-118): the three columns of the
`UNIQUE(website, sku, scraped_at)` arbiter — each nullable in the schema,
though `load_data` always sets `website` — plus the remaining payload
columns abstracted as a list of nullable strings. -/
structure DbRow where
  website : Option String
  sku : Option String
  scraped_at : Option String
  payload : List (Option String)
deriving DecidableEq

/-- Postgres comparison used by a UNIQUE constraint / ON CONFLICT arbiter on
one column: two values conflict only when both are non-null and equal; SQL
NULLs are distinct from one another. -/
def pgEq (a b : Option String) : Bool :=
  match a, b with
  | some x, some y => x == y
  | _, _ => false

/-- Whether two rows conflict on the `(website, sku, scraped_at)` arbiter. -/
def keyConflict (r1 r2 : DbRow) : Bool :=
  pgEq r1.website r2.website && pgEq r1.sku r2.sku
    && pgEq r1.scraped_at r2.scraped_at

/-- One VALUES tuple of `INSERT ... ON CONFLICT (website, sku, scraped_at)
DO NOTHING`: the row is appended unless some row already in the table
conflicts with it; an existing row is never modified. -/
def insertRow (table : List DbRow) (r : DbRow) : List DbRow :=
  if table.any (fun t => keyConflict t r) then table else table ++ [r]

/-- The `df['website'] = website` assignment of `PostgresLoader.load_data`. -/
def setWebsite (w : String) (r : DbRow) : DbRow := { r with website := some w }

/-- Shallow embedding of `PostgresLoader.load_data`
(src/load/load_postgres.py, lines 134-182): set the `website` column on every
incoming row, then run the multi-row insert; Postgres processes the tuples in
order, and with DO NOTHING a tuple inserted earlier in the same statement
already arbitrates later duplicates, so the sequential fold is faithful. -/
def load_data (table : List DbRow) (df : List DbRow) (website : String) :
    List DbRow :=
  (df.map (setWebsite website)).foldl insertRow table

/-- A cleaned record whose `sku` is null: the extractor emits `None` for
`sku` whenever the listing's link element lacks a `data-sku` attribute, and
the schema does not forbid it. -/
def nullSkuRow : DbRow :=
  { website := none, sku := none,
    scraped_at := some ("2025-01-01T00:00:00"), payload := [] }

/-- A cleaned record with a fully non-null key. -/
def sku1Row : DbRow :=
  { website := none, sku := some ("SKU1"),
    scraped_at := some ("2025-01-01T00:00:00"), payload := [] }

/-- C6 counterexample: loading the identical record twice leaves two rows
with the same `(website, sku, scraped_at)` key when `sku` is NULL — the
UNIQUE arbiter treats NULLs as distinct, ON CONFLICT never fires, and the
"exactly one row for that key after any number of loads" invariant is
false as universally stated. -/
theorem load_data_null_sku_duplicates :
    (load_data (load_data [] [nullSkuRow] ("jumia")) [nullSkuRow]
        ("jumia")).length = 2
    ∧ ((load_data (load_data [] [nullSkuRow] ("jumia")) [nullSkuRow]
        ("jumia")).filter (fun r =>
          r.website == some ("jumia") && r.sku == (none : Option String)
            && r.scraped_at == some ("2025-01-01T00:00:00"))).length ≠ 1 := by
  constructor
  · decide
  · decide

/-- C6 (amended): for every cleaned record whose `sku` and `scraped_at` are
non-null, loading the record any number n ≥ 1 of times into an empty store
leaves exactly the one originally inserted row: the duplicate loads are
no-ops (insert-if-absent) and the stored row is never overwritten.  (A
record with a NULL key column escapes the arbiter; see the
counterexample.) -/
theorem load_data_idempotent (w s t : String) (r : DbRow)
    (hs : r.sku = some s) (ht : r.scraped_at = some t) (n : ℕ) (hn : 1 ≤ n) :
    (fun table => load_data table [r] w)^[n] [] = [setWebsite w r] := by
  have hstep0 : load_data [] [r] w = [setWebsite w r] := by
    simp [load_data, insertRow]
  have hfix : load_data [setWebsite w r] [r] w = [setWebsite w r] := by
    simp [load_data, insertRow, keyConflict, pgEq, setWebsite, hs, ht]
  have hfixAll : ∀ k, (fun table => load_data table [r] w)^[k] [setWebsite w r]
      = [setWebsite w r] := by
    intro k
    induction k with
    | zero => simp
    | succ k ih =>
      rw [Function.iterate_succ_apply]
      rw [hfix]
      exact ih
  obtain ⟨k, rfl⟩ : ∃ k, n = k + 1 := ⟨n - 1, by omega⟩
  rw [Function.iterate_succ_apply]
  rw [hstep0]
  exact hfixAll k

/-- C6 witness: the idempotence law at a concrete record with a non-null
key, loaded twice. -/
theorem load_data_idempotent_witness :
    sku1Row.sku = some ("SKU1")
    ∧ sku1Row.scraped_at = some ("2025-01-01T00:00:00")
    ∧ (1 : ℕ) ≤ 2
    ∧ (fun table => load_data table [sku1Row] ("jumia"))^[2] []
        = [setWebsite ("jumia") sku1Row] :=
  ⟨rfl, rfl, by omega,
    load_data_idempotent ("jumia") ("SKU1") ("2025-01-01T00:00:00") sku1Row
      rfl rfl 2 (by omega)⟩

/-- One category entry as stored on `self.categories` by the catalog
builder. -/
structure CategoryEntry where
  name : String
  url : String

/-- The per-category loop of `Jumia.scrape_all_categories`
(src/scraping/jumia/main.py, lines 295-307): each category's crawl runs
inside `try/except Exception: ... continue`, so a crawl that raises is
logged and the loop moves on to the next category.  `crawl` abstracts one
`scrape_product_list` call, with `Except.error` modelling a raised
exception; the result records, in order, each attempted category and whether
its crawl succeeded. -/
def scrape_all_categories {ε : Type} (crawl : CategoryEntry → Except ε Unit) :
    List CategoryEntry → List (CategoryEntry × Bool)
  | [] => []
  | c :: rest =>
    match crawl c with
    | .ok _ => (c, true) :: scrape_all_categories crawl rest
    | .error _ => (c, false) :: scrape_all_categories crawl rest

/-- C8: errors are contained per category — whatever exceptions the
per-category crawls raise, `scrape_all_categories` is a total function that
attempts every category of the run in discovery order; a failure at one
category never aborts the remaining ones and no error escapes the loop.
(Within one category, page errors hit the `except: break` of
`scrape_product_list`, which only terminates that category's loop — every
`break` is a value-returning branch of `scrapeLoop`.) -/
theorem scrape_all_categories_attempts_all {ε : Type}
    (crawl : CategoryEntry → Except ε Unit) (cats : List CategoryEntry) :
    (scrape_all_categories crawl cats).map Prod.fst = cats := by
  induction cats with
  | nil => simp [scrape_all_categories]
  | cons c rest ih =>
    cases hc : crawl c with
    | ok v => simp [scrape_all_categories, hc, ih]
    | error e => simp [scrape_all_categories, hc, ih]

/-- A Python/pandas cell value as it can appear in a raw column read back by
`CleanData.run`: pandas `read_csv` marks a missing cell with the float NaN. -/
inductive PyObj
  | pyNone
  | pyNaN
  | pyBool (b : Bool)
  | pyStr (s : String)
  | pyInt (n : ℤ)
deriving DecidableEq

/-- Python truthiness (`bool(x)`) as applied elementwise by pandas
`astype(bool)` on an object column: `bool(float('nan'))` is true because NaN
is a non-zero float, a string is true iff non-empty, an int is true iff
non-zero, and `bool(None)` is false. -/
def pyTruthy : PyObj → Bool
  | .pyNone => false
  | .pyNaN => true
  | .pyBool b => b
  | .pyStr s => decide (s ≠ "")
  | .pyInt n => decide (n ≠ 0)

/-- The boolean-cleaning step of `CleanDataJumia.clean`
(src/transform/jumia/main.py, lines 52-56): `df[col] =
df[col].astype(bool)`, i.e. every cell of the column is mapped by Python
truthiness and the output column is plain booleans with no null state. -/
def clean_bool_column (col : List PyObj) : List Bool :=
  col.map pyTruthy

/-- C9: a raw row whose `is_official_store` cell is missing — pandas
represents the missing CSV cell as NaN — is normalised by the direct bool
cast to `true`, not to `false` and not to a null: the output type has no
null state, and NaN, like every non-false-typed value, casts to true. -/
theorem clean_bool_missing_is_true :
    pyTruthy .pyNaN = true
    ∧ clean_bool_column [.pyNaN, .pyBool false, .pyBool true]
        = [true, false, true] := by
  constructor
  · decide
  · decide

/-- Python `str.lower` over character lists (ASCII inputs here), so the
kernel can evaluate it. -/
def strToLower (s : String) : String :=
  String.mk (s.toList.map Char.toLower)

/-- `Base.sites_available` (src/scraping/base.py, line 20). -/
def sites_available : List String :=
  ["jumia", "marjane", "electroplanet", "bikhir", "decathlon", "hmizate"]

/-- The keys of `ScraperOrchestrator.SCRAPERS` (src/scraping/main.py,
lines 28-36). -/
def scraperKeys : List String :=
  ["jumia", "marjane", "avito", "electroplanet", "bikhir", "decathlon",
   "hmizate"]

/-- The `site_name` the registered scraper class of a key passes to
`Base.__init__`: every scraper class present under src passes exactly its
registry key (`Jumia` passes "jumia", `Avito` passes "avito",
`Electroplanet` passes "electroplanet", `Hmizate` passes "hmizate"), so the
map is the identity; the theorems below only read the "avito" entry. -/
def scraperSiteName (key : String) : String := key

/-- How far `run_scraper` gets before a scraper's `run` method would start:
rejection of an unregistered site (ValueError from the orchestrator),
ValueError raised by `Base.__init__` during construction, or reaching the
scraper's `run` method. -/
inductive RunResult
  | unsupportedSite
  | constructorValueError
  | reachedRun (site : String)
deriving DecidableEq

/-- Shallow embedding of `run_scraper` / `ScraperOrchestrator.run`
(src/scraping/main.py, lines 28-78) composed with the `Base.__init__`
validation (src/scraping/base.py, lines 20-31): lowercase the site, check
the `SCRAPERS` registry, then instantiate the scraper class, whose base
constructor checks `site_name in sites_available` before any scraping
method can run. -/
def run_scraper (website : String) : RunResult :=
  let key := strToLower website
  if key ∈ scraperKeys then
    if scraperSiteName key ∈ sites_available then .reachedRun key
    else .constructorValueError
  else .unsupportedSite

/-- `ScraperOrchestrator.is_scraper_available` (src/scraping/main.py). -/
def is_scraper_available (website : String) : Bool :=
  decide (strToLower website ∈ scraperKeys)

/-- C10: the registry and the base constructor disagree about avito:
`is_scraper_available "avito"` is true, yet `run_scraper "avito"` ends in
the ValueError raised by `Base.__init__` — "avito" is registered in
`SCRAPERS` but missing from `Base.sites_available` — before any scraping
method runs, so the Avito class's NotImplementedError paths are unreachable
through the orchestrator. -/
theorem avito_registered_but_unconstructible :
    is_scraper_available ("avito") = true
    ∧ run_scraper ("avito") = .constructorValueError := by
  constructor
  · decide
  · decide
